import Mathlib

/-!
Verification of the batch download orchestrator in `src/downloader.py`.

The Python module is a thin shell around an external extraction library:
it builds a configuration (format selector, output template), iterates a
URL list sequentially, dispatches each URL to the collaborator's probe
(`extract_info`) and fetch (`download`) operations, collects one result
record per URL and renders a summary.  All of that logic is pure given
the collaborator's responses, so we embed it shallowly: the collaborator
is a pair of functions from URLs to `Except`-valued outcomes, and each
Python method becomes a Lean function on explicit data.
-/

namespace Downloader

/-- Python truthiness for an optional string: `None` and `""` are falsy.
Used by `if format_selector:`, `if args.file:` and `if args.urls:` checks. -/
def pyTruthy : Option String → Bool
  | none => false
  | some s => !s.isEmpty

/-- Python `s.rstrip("p")`: remove every trailing `'p'` character. -/
def rstripP (s : String) : String :=
  String.mk ((s.toList.reverse.dropWhile (fun c => c = 'p')).reverse)

/-- The quality-derived selector of `downloader.py` line 54:
`f'best[height<={q}][ext=mp4]/best[height<={q}]'` for the stripped quality. -/
def heightSelector (h : String) : String :=
  "best[height<=" ++ h ++ "][ext=mp4]/best[height<=" ++ h ++ "]"

/-- Format selection of `YouTubeDownloader.__init__` (lines 44-54):
custom selector first (when truthy), then audio-only, then quality. -/
def build_format (format_selector : Option String) (audio_only : Bool)
    (quality : String) : String :=
  if pyTruthy format_selector then format_selector.getD ""
  else if audio_only then "bestaudio/best"
  else if quality = "best" then
    "bestvideo[ext=mp4]+bestaudio[ext=m4a]/best[ext=mp4]/best"
  else if quality = "worst" then "worst[ext=mp4]/worst"
  else heightSelector (rstripP quality)

/-- The quality-only branch of the format selection (lines 49-54), as a
function of the quality string alone. -/
def quality_format (quality : String) : String :=
  if quality = "best" then
    "bestvideo[ext=mp4]+bestaudio[ext=m4a]/best[ext=mp4]/best"
  else if quality = "worst" then "worst[ext=mp4]/worst"
  else heightSelector (rstripP quality)

/-- The `ydl_opts` dictionary built in `YouTubeDownloader.__init__`. -/
structure YdlOpts where
  outtmpl : String
  ignoreerrors : Bool
  no_warnings : Bool
  extractaudio : Bool
  audioformat : Option String
  format : String
  deriving Repr, DecidableEq

/-- Construction of `ydl_opts` (lines 35-54). -/
def mk_ydl_opts (download_path : String) (audio_only : Bool)
    (quality : String) (format_selector : Option String) : YdlOpts :=
  { outtmpl := download_path ++ "/%(title)s.%(ext)s"
    ignoreerrors := true
    no_warnings := false
    extractaudio := audio_only
    audioformat := if audio_only then some "mp3" else none
    format := build_format format_selector audio_only quality }

/-- Metadata returned by the collaborator's probe (`ydl.extract_info`):
`title` and `duration` may each be absent (`info.get` default paths). -/
structure Metadata where
  title : Option String
  duration : Option Nat
  deriving Repr, DecidableEq

/-- Status field of a result record: `'success'` or `'error'`. -/
inductive Status where
  | success
  | error
  deriving Repr, DecidableEq

/-- One result dictionary as built by `download_single_video`. -/
structure DownloadResult where
  url : String
  title : String
  status : Status
  duration : Nat
  error : Option String
  deriving Repr, DecidableEq

/-- A dispatch to the external collaborator: probe (`extract_info` with
`download=False`) or fetch (`ydl.download([url])`). -/
inductive Event where
  | probe (url : String)
  | fetch (url : String)
  deriving Repr, DecidableEq

/-- The external collaborator (yt-dlp) as a black box: each operation
either returns normally or raises, with a message string. -/
structure Collaborator where
  extract_info : String → Except String Metadata
  download : String → Except String Unit

/-- Method `YouTubeDownloader.download_single_video` (lines 57-90):
probe for metadata (defaulting title and duration), then fetch; any
raised failure is caught and turned into a status-`error` record with
the failure's message, title `'Unknown'` and duration `0`.  The second
component records the dispatches actually performed. -/
def download_single_video (c : Collaborator) (url : String) :
    DownloadResult × List Event :=
  match c.extract_info url with
  | Except.error e =>
      ({ url := url, title := "Unknown", status := Status.error,
         duration := 0, error := some e }, [Event.probe url])
  | Except.ok info =>
      match c.download url with
      | Except.error e =>
          ({ url := url, title := "Unknown", status := Status.error,
             duration := 0, error := some e },
           [Event.probe url, Event.fetch url])
      | Except.ok _ =>
          ({ url := url, title := info.title.getD "Unknown",
             status := Status.success, duration := info.duration.getD 0,
             error := none },
           [Event.probe url, Event.fetch url])

/-- The result record of a single dispatch, without its event trace. -/
def download_single_result (c : Collaborator) (url : String) :
    DownloadResult :=
  (download_single_video c url).1

/-- Method `YouTubeDownloader.download_multiple_videos` (lines 92-106):
the sequential loop appending one result per URL, in order. -/
def download_multiple_videos (c : Collaborator) (urls : List String) :
    List DownloadResult × List Event :=
  (urls.map (download_single_result c),
   (urls.map (fun u => (download_single_video c u).2)).flatten)

/-- Line 113 of `download_from_file`: keep a line's stripped form when the
stripped form is non-empty and the raw line does not start with `'#'`. -/
def parse_url_lines (lines : List String) : List String :=
  lines.filterMap (fun line =>
    if !line.trim.isEmpty && !line.startsWith "#" then some line.trim
    else none)

/-- Failures of reading the URL-list file: `FileNotFoundError` or any
other exception (both caught in lines 115-120). -/
inductive FileErr where
  | notFound
  | ioError (msg : String)
  deriving Repr, DecidableEq

/-- Method `YouTubeDownloader.download_from_file` (lines 108-120): read
and parse the file, then run the loop; on any read failure return `[]`. -/
def download_from_file (c : Collaborator)
    (fs : String → Except FileErr (List String)) (file_path : String) :
    List DownloadResult × List Event :=
  match fs file_path with
  | Except.error _ => ([], [])
  | Except.ok lines => download_multiple_videos c (parse_url_lines lines)

/-- What `print_summary` (lines 122-141) renders: counts, the duration
line (present only when some download succeeded, as `(H, M, S)`), and
the failed URLs with their messages. -/
structure Summary where
  total : Nat
  successCount : Nat
  failCount : Nat
  durationLine : Option (Nat × Nat × Nat)
  failures : List (String × Option String)
  deriving Repr, DecidableEq

/-- Method `YouTubeDownloader.print_summary` (lines 122-141). -/
def print_summary (results : List DownloadResult) : Summary :=
  let successful := results.filter (fun r => r.status == Status.success)
  let failed := results.filter (fun r => r.status == Status.error)
  { total := results.length
    successCount := successful.length
    failCount := failed.length
    durationLine :=
      if successful.isEmpty then none
      else
        let total_duration := (successful.map (fun r => r.duration)).sum
        some (total_duration / 3600, (total_duration % 3600) / 60,
              total_duration % 60)
    failures := failed.map (fun r => (r.url, r.error)) }

/-- The parsed command-line arguments of `main` (lines 145-154). -/
structure Args where
  urls : List String
  file : Option String
  output : String
  audio_only : Bool
  quality : String
  format : Option String

/-- The observable outcome of one `main` run. -/
structure MainOutcome where
  results : List DownloadResult
  events : List Event
  printedUsage : Bool
  summary : Option Summary
  exitCode : Nat
  deriving Repr, DecidableEq

/-- Function `main` (lines 144-184): download from the file when
`args.file` is truthy, then from the command-line URLs when non-empty;
with neither source, print usage guidance and return (exit status 0);
otherwise print the summary of the concatenated results (also exit
status 0). -/
def main_run (c : Collaborator)
    (fs : String → Except FileErr (List String)) (args : Args) :
    MainOutcome :=
  let filePart :=
    if pyTruthy args.file then download_from_file c fs (args.file.getD "")
    else ([], [])
  let urlPart :=
    if args.urls.isEmpty then ([], [])
    else download_multiple_videos c args.urls
  let results := filePart.1 ++ urlPart.1
  let events := filePart.2 ++ urlPart.2
  if !pyTruthy args.file && args.urls.isEmpty then
    { results := results, events := events, printedUsage := true,
      summary := none, exitCode := 0 }
  else
    { results := results, events := events, printedUsage := false,
      summary := some (print_summary results), exitCode := 0 }

inductive QualityError where
  | invalidQuality
  deriving Repr, DecidableEq

/-- Whether a string is a parseable (base-ten) integer: non-empty and
all digits. -/
def parses_as_nat (s : String) : Bool :=
  !s.isEmpty && s.toList.all (fun c => c.isDigit)

/-- The configuration builder as §4.1 of the spec demands it: identical
to `build_format` except that a quality string whose stripped suffix is
not a parseable integer fails with `InvalidQuality` instead of being
interpolated verbatim.  Used only to compare the spec's words with the
source's behavior. -/
def build_format_per_spec (format_selector : Option String)
    (audio_only : Bool) (quality : String) : Except QualityError String :=
  if pyTruthy format_selector then Except.ok (format_selector.getD "")
  else if audio_only then Except.ok "bestaudio/best"
  else if quality = "best" then
    Except.ok "bestvideo[ext=mp4]+bestaudio[ext=m4a]/best[ext=mp4]/best"
  else if quality = "worst" then Except.ok "worst[ext=mp4]/worst"
  else if parses_as_nat (rstripP quality) then
    Except.ok (heightSelector (rstripP quality))
  else Except.error QualityError.invalidQuality

deriving instance DecidableEq for Except

/-- The collaborator completes both operations for a URL without
raising. -/
def collab_ok (c : Collaborator) (u : String) : Prop :=
  (∃ m, c.extract_info u = Except.ok m) ∧ c.download u = Except.ok ()

/-- A collaborator whose probe and fetch always succeed. -/
def ok_collab : Collaborator where
  extract_info := fun _ =>
    Except.ok { title := some "T", duration := some 100 }
  download := fun _ => Except.ok ()

/-- A collaborator whose probe yields no metadata and whose fetch
succeeds. -/
def bare_collab : Collaborator where
  extract_info := fun _ => Except.ok { title := none, duration := none }
  download := fun _ => Except.ok ()

/-- A collaborator that raises `"boom"` while probing `"bad"` and
succeeds on every other URL. -/
def mixed_collab : Collaborator where
  extract_info := fun u =>
    if u = "bad" then Except.error "boom"
    else Except.ok { title := some "T", duration := some 90 }
  download := fun _ => Except.ok ()

/-- A filesystem on which every read raises `FileNotFoundError`. -/
def fs_missing : String → Except FileErr (List String) :=
  fun _ => Except.error FileErr.notFound

/-- A fixed result sequence used to exercise the summary renderer. -/
def demo_results : List DownloadResult :=
  [{ url := "a", title := "A", status := Status.success,
     duration := 3700, error := none },
   { url := "b", title := "Unknown", status := Status.error,
     duration := 0, error := some "boom" },
   { url := "c", title := "C", status := Status.success,
     duration := 125, error := none }]

lemma url_of_single (c : Collaborator) (u : String) :
    (download_single_result c u).url = u := by
  cases h : c.extract_info u with
  | error e => simp [download_single_result, download_single_video, h]
  | ok m =>
    cases h2 : c.download u with
    | error e => simp [download_single_result, download_single_video, h, h2]
    | ok v => simp [download_single_result, download_single_video, h, h2]

lemma map_url_results (c : Collaborator) (urls : List String) :
    (urls.map (download_single_result c)).map (fun r => r.url) = urls := by
  induction urls with
  | nil => rfl
  | cons u us ih => simp [url_of_single, ih]

lemma single_ok_status (c : Collaborator) (u : String)
    (h : collab_ok c u) :
    (download_single_result c u).status = Status.success := by
  obtain ⟨⟨m, hm⟩, hd⟩ := h
  simp [download_single_result, download_single_video, hm, hd]

lemma single_fail_result (c : Collaborator) (u e : String)
    (h : c.extract_info u = Except.error e ∨
         (∃ m, c.extract_info u = Except.ok m) ∧
           c.download u = Except.error e) :
    download_single_result c u =
      { url := u, title := "Unknown", status := Status.error,
        duration := 0, error := some e } := by
  rcases h with hp | ⟨⟨m, hm⟩, hd⟩
  · simp [download_single_result, download_single_video, hp]
  · simp [download_single_result, download_single_video, hm, hd]

lemma get?_after_map {α β : Type} (f : α → β) (l : List α)
    (l₂ : List β) : (l.map f ++ l₂).get? l.length = l₂.get? 0 := by
  induction l with
  | nil => rfl
  | cons a as ih => simpa using ih

/-- C1: one `DownloadResult` per input URL, order-preserved: mapping the
`url` field over the loop's results recovers the input URL list, and
when both a URL file and command-line URLs are supplied, `main` places
all file-sourced results before all command-line results. -/
theorem one_result_per_url (c : Collaborator) (urls : List String)
    (fs : String → Except FileErr (List String)) (args : Args) :
    ((download_multiple_videos c urls).1.map (fun r => r.url) = urls) ∧
    (pyTruthy args.file = true → args.urls ≠ [] →
      (main_run c fs args).results =
        (download_from_file c fs (args.file.getD "")).1 ++
        (download_multiple_videos c args.urls).1) := by
  constructor
  · exact map_url_results c urls
  · intro hf hu
    have hune : args.urls.isEmpty = false := by
      cases h : args.urls.isEmpty
      · rfl
      · exact absurd (List.isEmpty_iff.mp h) hu
    simp [main_run, hf, hune]

/-- Witness for C1 at a concrete collaborator, URL list and argument
record with both sources supplied. -/
theorem one_result_per_url_witness :
    ((download_multiple_videos ok_collab ["a", "b"]).1.map (fun r => r.url)
      = ["a", "b"]) ∧
    (main_run ok_collab fs_missing
        { urls := ["a"], file := some "f.txt", output := "./downloads",
          audio_only := false, quality := "best", format := none }).results =
      (download_from_file ok_collab fs_missing "f.txt").1 ++
      (download_multiple_videos ok_collab ["a"]).1 := by
  have h := one_result_per_url ok_collab ["a", "b"] fs_missing
    { urls := ["a"], file := some "f.txt", output := "./downloads",
      audio_only := false, quality := "best", format := none }
  exact ⟨h.1, h.2 (by decide) (by simp)⟩

/-- C2 counterexample: for the unparseable quality `"abc"` the source's
builder does not fail; it silently produces the malformed selector
`best[height<=abc][ext=mp4]/best[height<=abc]`, whereas the builder the
spec describes rejects `"abc"` with `InvalidQuality`. -/
theorem quality_abc_not_rejected :
    build_format none false "abc" =
      "best[height<=abc][ext=mp4]/best[height<=abc]" ∧
    build_format_per_spec none false "abc" =
      Except.error QualityError.invalidQuality := by
  exact ⟨by decide, by decide⟩

/-- C2 amended: quality `"720p"` yields the height-at-most-720 selector;
quality `"abc"` does not fail but yields a selector carrying the literal
text `height<=abc`. -/
theorem quality_720p_and_abc :
    build_format none false "720p" =
      "best[height<=720][ext=mp4]/best[height<=720]" ∧
    build_format none false "abc" =
      "best[height<=abc][ext=mp4]/best[height<=abc]" := by
  exact ⟨by decide, by decide⟩

/-- C3: when the collaborator raises `e` during probe or fetch of the
URL `u` sitting between `pre` and `post` (position `pre.length`), the
loop still produces one result per URL, records for `u` a
status-`error` result with message `e`, defaulted title and duration
`0`, and — when every other URL succeeds — the summary shows exactly
one failure (`u` with `e`) and `n - 1` successes. -/
theorem failure_isolation (c : Collaborator) (pre post : List String)
    (u e : String)
    (hfail : c.extract_info u = Except.error e ∨
             (∃ m, c.extract_info u = Except.ok m) ∧
               c.download u = Except.error e)
    (hpre : ∀ v ∈ pre, collab_ok c v)
    (hpost : ∀ v ∈ post, collab_ok c v) :
    (download_multiple_videos c (pre ++ u :: post)).1.length =
      (pre ++ u :: post).length ∧
    (download_multiple_videos c (pre ++ u :: post)).1.get? pre.length =
      some { url := u, title := "Unknown", status := Status.error,
             duration := 0, error := some e } ∧
    (print_summary
        (download_multiple_videos c (pre ++ u :: post)).1).failCount = 1 ∧
    (print_summary
        (download_multiple_videos c (pre ++ u :: post)).1).successCount =
      (pre ++ u :: post).length - 1 ∧
    (print_summary
        (download_multiple_videos c (pre ++ u :: post)).1).failures =
      [(u, some e)] := by
  have hres : (download_multiple_videos c (pre ++ u :: post)).1 =
      pre.map (download_single_result c) ++
        download_single_result c u ::
          post.map (download_single_result c) := by
    simp [download_multiple_videos]
  have hfu : download_single_result c u =
      { url := u, title := "Unknown", status := Status.error,
        duration := 0, error := some e } :=
    single_fail_result c u e hfail
  have hprestatus : ∀ r ∈ pre.map (download_single_result c),
      r.status = Status.success := by
    intro r hr
    obtain ⟨v, hv, rfl⟩ := List.mem_map.mp hr
    exact single_ok_status c v (hpre v hv)
  have hpoststatus : ∀ r ∈ post.map (download_single_result c),
      r.status = Status.success := by
    intro r hr
    obtain ⟨v, hv, rfl⟩ := List.mem_map.mp hr
    exact single_ok_status c v (hpost v hv)
  have hfailfilter :
      (pre.map (download_single_result c) ++
        download_single_result c u ::
          post.map (download_single_result c)).filter
        (fun r => r.status == Status.error) =
      [download_single_result c u] := by
    rw [List.filter_append, List.filter_cons,
        List.filter_eq_nil_iff.mpr
          (fun r hr => by simp [hprestatus r hr]),
        List.filter_eq_nil_iff.mpr
          (fun r hr => by simp [hpoststatus r hr])]
    simp [hfu]
  have hsucfilter :
      (pre.map (download_single_result c) ++
        download_single_result c u ::
          post.map (download_single_result c)).filter
        (fun r => r.status == Status.success) =
      pre.map (download_single_result c) ++
        post.map (download_single_result c) := by
    rw [List.filter_append, List.filter_cons,
        List.filter_eq_self.mpr (fun r hr => by simp [hprestatus r hr]),
        List.filter_eq_self.mpr (fun r hr => by simp [hpoststatus r hr])]
    simp [hfu]
  refine ⟨?_, ?_, ?_, ?_, ?_⟩
  · rw [hres]
    simp
  · rw [hres, get?_after_map]
    simp [hfu]
  · simp only [print_summary, hres, hfailfilter]
    rfl
  · simp only [print_summary, hres, hsucfilter]
    simp
  · simp only [print_summary, hres, hfailfilter]
    simp [hfu]

/-- Witness for C3: three URLs where only the middle one (`"bad"`) makes
the collaborator raise `"boom"`. -/
theorem failure_isolation_witness :
    (download_multiple_videos mixed_collab
        (["good1"] ++ "bad" :: ["good2"])).1.length =
      (["good1"] ++ "bad" :: ["good2"]).length ∧
    (download_multiple_videos mixed_collab
        (["good1"] ++ "bad" :: ["good2"])).1.get? 1 =
      some { url := "bad", title := "Unknown", status := Status.error,
             duration := 0, error := some "boom" } ∧
    (print_summary (download_multiple_videos mixed_collab
        (["good1"] ++ "bad" :: ["good2"])).1).failCount = 1 ∧
    (print_summary (download_multiple_videos mixed_collab
        (["good1"] ++ "bad" :: ["good2"])).1).successCount =
      (["good1"] ++ "bad" :: ["good2"]).length - 1 ∧
    (print_summary (download_multiple_videos mixed_collab
        (["good1"] ++ "bad" :: ["good2"])).1).failures =
      [("bad", some "boom")] :=
  failure_isolation mixed_collab ["good1"] ["good2"] "bad" "boom"
    (Or.inl (by decide))
    (fun v hv => by
      simp at hv
      subst hv
      exact ⟨⟨{ title := some "T", duration := some 90 }, by decide⟩, rfl⟩)
    (fun v hv => by
      simp at hv
      subst hv
      exact ⟨⟨{ title := some "T", duration := some 90 }, by decide⟩, rfl⟩)

/-- C4: whenever some result succeeded, the summary's duration line is
the sum `t` of the durations of the status-`success` results, rendered
as `(t / 3600, (t % 3600) / 60, t % 60)`. -/
theorem summary_duration_formula (results : List DownloadResult)
    (h : ∃ r ∈ results, r.status = Status.success) :
    (print_summary results).durationLine =
      some
        (((results.filter (fun r => r.status == Status.success)).map
            (fun r => r.duration)).sum / 3600,
         (((results.filter (fun r => r.status == Status.success)).map
            (fun r => r.duration)).sum % 3600) / 60,
         ((results.filter (fun r => r.status == Status.success)).map
            (fun r => r.duration)).sum % 60) := by
  obtain ⟨r, hr, hs⟩ := h
  have hmem : r ∈ results.filter (fun r => r.status == Status.success) := by
    simp [List.mem_filter, hr, hs]
  have hne : (results.filter
      (fun r => r.status == Status.success)).isEmpty = false := by
    cases hE : (results.filter (fun r => r.status == Status.success)).isEmpty
    · rfl
    · rw [List.isEmpty_iff.mp hE] at hmem
      cases hmem
  simp [print_summary, hne]

/-- Witness for C4: successes of 3700 s and 125 s (total 3825 s) render
as 1 h 3 m 45 s. -/
theorem summary_duration_formula_witness :
    (print_summary demo_results).durationLine = some (1, 3, 45) := by
  rw [summary_duration_formula demo_results (by decide)]
  decide

/-- C5: parsing the URL-list file keeps exactly the lines whose stripped
form is non-empty and that do not start with `'#'`, in file order (each
contributed as its stripped form); blank and comment lines contribute
nothing. -/
theorem url_file_parsing (lines : List String) :
    parse_url_lines lines =
      (lines.filter
        (fun l => !l.trim.isEmpty && !l.startsWith "#")).map String.trim := by
  induction lines with
  | nil => rfl
  | cons l ls ih =>
    simp only [parse_url_lines, List.filterMap_cons, List.filter_cons] at ih ⊢
    by_cases h1 : l.trim.isEmpty
    · simp [h1]
      simp_all
    · by_cases h2 : l.startsWith "#"
      · simp [h1, h2]
        simp_all
      · simp [h1, h2]
        simp_all

/-- C6: when the URL-list file read raises, that source contributes zero
URLs and the run is not aborted: `main`'s results, summary and
dispatches are exactly those of the command-line URLs. -/
theorem missing_file_keeps_cli (c : Collaborator)
    (fs : String → Except FileErr (List String)) (args : Args)
    (p : String) (err : FileErr)
    (hf : args.file = some p) (hread : fs p = Except.error err)
    (hu : args.urls ≠ []) :
    (main_run c fs args).results =
      (download_multiple_videos c args.urls).1 ∧
    (main_run c fs args).summary =
      some (print_summary (download_multiple_videos c args.urls).1) ∧
    (main_run c fs args).events =
      (download_multiple_videos c args.urls).2 := by
  have hune : args.urls.isEmpty = false := by
    cases h : args.urls.isEmpty
    · rfl
    · exact absurd (List.isEmpty_iff.mp h) hu
  have hfile : (if pyTruthy args.file then
      download_from_file c fs (args.file.getD "") else ([], [])) =
      (([] : List DownloadResult), ([] : List Event)) := by
    rw [hf]
    by_cases hp : p.isEmpty
    · simp [pyTruthy, hp]
    · simp [pyTruthy, hp, download_from_file, hread]
  simp [main_run, hfile, hune]

/-- Witness for C6: a missing list file `nope.txt` together with the
command-line URL `"a"`. -/
theorem missing_file_keeps_cli_witness :
    (main_run ok_collab fs_missing
        { urls := ["a"], file := some "nope.txt", output := "./downloads",
          audio_only := false, quality := "best", format := none }).results =
      (download_multiple_videos ok_collab ["a"]).1 ∧
    (main_run ok_collab fs_missing
        { urls := ["a"], file := some "nope.txt", output := "./downloads",
          audio_only := false, quality := "best", format := none }).summary =
      some (print_summary (download_multiple_videos ok_collab ["a"]).1) ∧
    (main_run ok_collab fs_missing
        { urls := ["a"], file := some "nope.txt", output := "./downloads",
          audio_only := false, quality := "best", format := none }).events =
      (download_multiple_videos ok_collab ["a"]).2 :=
  missing_file_keeps_cli ok_collab fs_missing _ "nope.txt"
    FileErr.notFound rfl rfl (by simp)

/-- C7: with a falsy `--file` argument and no positional URLs, `main`
prints usage guidance, performs zero collaborator dispatches, renders no
summary and exits with status 0. -/
theorem usage_on_no_input (c : Collaborator)
    (fs : String → Except FileErr (List String)) (args : Args)
    (hf : pyTruthy args.file = false) (hu : args.urls = []) :
    main_run c fs args =
      { results := [], events := [], printedUsage := true,
        summary := none, exitCode := 0 } := by
  simp [main_run, hf, hu]

/-- Witness for C7 at an argument record with no file and no URLs. -/
theorem usage_on_no_input_witness :
    main_run ok_collab fs_missing
      { urls := [], file := none, output := "./downloads",
        audio_only := false, quality := "best", format := none } =
    { results := [], events := [], printedUsage := true,
      summary := none, exitCode := 0 } :=
  usage_on_no_input ok_collab fs_missing _ rfl rfl

/-- C8: when the probe returns metadata lacking both title and duration
and the fetch succeeds, the result has status-`success` with title
`'Unknown'` and duration `0`, and the fetch dispatch is still
performed (it appears in the event trace after the probe). -/
theorem missing_metadata_defaults (c : Collaborator) (u : String)
    (m : Metadata) (ht : m.title = none) (hd : m.duration = none)
    (hp : c.extract_info u = Except.ok m)
    (hfetch : c.download u = Except.ok ()) :
    download_single_video c u =
      ({ url := u, title := "Unknown", status := Status.success,
         duration := 0, error := none },
       [Event.probe u, Event.fetch u]) := by
  simp [download_single_video, hp, hfetch, ht, hd]

/-- Witness for C8: a collaborator returning metadata with neither title
nor duration. -/
theorem missing_metadata_defaults_witness :
    download_single_video bare_collab "u1" =
      ({ url := "u1", title := "Unknown", status := Status.success,
         duration := 0, error := none },
       [Event.probe "u1", Event.fetch "u1"]) :=
  missing_metadata_defaults bare_collab "u1"
    { title := none, duration := none } rfl rfl rfl rfl

/-- C9: for a quality other than `best`/`worst` (no custom selector,
audio-only false) the builder never fails: it strips every trailing
`'p'` and interpolates the remainder verbatim, so `"720"`, `"720p"` and
`"720pp"` all give the height-at-most-720 selector and `"abc"` gives a
selector with the literal text `height<=abc`. -/
theorem quality_suffix_passthrough :
    (∀ q : String, q ≠ "best" → q ≠ "worst" →
      build_format none false q = heightSelector (rstripP q)) ∧
    build_format none false "720" = heightSelector "720" ∧
    build_format none false "720p" = heightSelector "720" ∧
    build_format none false "720pp" = heightSelector "720" ∧
    build_format none false "abc" =
      "best[height<=" ++ "abc" ++ "][ext=mp4]/best[height<=" ++ "abc" ++ "]" := by
  refine ⟨?_, by decide, by decide, by decide, by decide⟩
  intro q hb hw
  simp [build_format, pyTruthy, hb, hw]

/-- Witness for C9 at the concrete quality `"480p"`. -/
theorem quality_suffix_passthrough_witness :
    build_format none false "480p" = heightSelector (rstripP "480p") :=
  quality_suffix_passthrough.1 "480p" (by decide) (by decide)

/-- C10: strict format precedence: a non-empty custom selector wins over
everything; otherwise audio-only forces `bestaudio/best`; otherwise the
format is a function of the quality string alone. -/
theorem format_precedence (fs : Option String) (a : Bool) (q : String) :
    (∀ f, fs = some f → f ≠ "" → build_format fs a q = f) ∧
    (pyTruthy fs = false → a = true → build_format fs a q = "bestaudio/best") ∧
    (pyTruthy fs = false → a = false → build_format fs a q = quality_format q) := by
  refine ⟨?_, ?_, ?_⟩
  · intro f hfs hne
    subst hfs
    have hE : f.isEmpty = false := by
      cases hE : f.isEmpty
      · rfl
      · exact absurd ((String.isEmpty_iff f).mp hE) hne
    simp [build_format, pyTruthy, hE]
  · intro h ha
    subst ha
    simp [build_format, h]
  · intro h ha
    subst ha
    simp [build_format, h, quality_format]

/-- Witness for C10: the three precedence branches at concrete inputs. -/
theorem format_precedence_witness :
    build_format (some "137+140") true "720p" = "137+140" ∧
    build_format none true "720p" = "bestaudio/best" ∧
    build_format (some "") false "720p" = quality_format "720p" :=
  ⟨(format_precedence (some "137+140") true "720p").1 "137+140" rfl (by decide),
   (format_precedence none true "720p").2.1 rfl rfl,
   (format_precedence (some "") false "720p").2.2 (by decide) rfl⟩

end Downloader
